import Mathlib

set_option maxHeartbeats 1000000

/-!
Verification of the account-creation automation script (src/script.py).

The script drives a browser through a signup flow.  Every interaction with
the outside world (the browser, the page, the filesystem) is abstracted as
an explicit environment value describing the outcome the world produces for
that interaction; the control flow of the Python code is then reproduced
faithfully over those environments.  Python exceptions are modelled by the
`PyExn` type (type name plus message) and `Except`; machine randomness is
modelled by passing the drawn values as arguments together with hypotheses
describing the range they are drawn from.
-/

/-- A Python exception, abstracted as its type name and its message string
(the value of type(e).__name__ and str(e)). -/
structure PyExn where
  name : String
  msg : String
deriving DecidableEq, Repr

/-- Helper for the Python `in` substring test: does the character list start
with the given pattern? -/
def strStartsWith : List Char → List Char → Bool
  | _, [] => true
  | [], _ :: _ => false
  | c :: cs, p :: ps => (c == p) && strStartsWith cs ps

/-- Helper for the Python `in` substring test on character lists. -/
def strFind : List Char → List Char → Bool
  | [], pat => pat.isEmpty
  | c :: cs, pat => strStartsWith (c :: cs) pat || strFind cs pat

/-- The Python `sub in s` substring test on strings. -/
def strContains (s sub : String) : Bool :=
  strFind s.data sub.data

/-- The characters of the Python s.lower() of a string. -/
def lowerData (s : String) : List Char := s.data.map Char.toLower

/-- The Python `sub in s.lower()` test. -/
def strContainsLower (s sub : String) : Bool :=
  strFind (lowerData s) sub.data

/-- The configuration dataclass BotConfig of the script, restricted to the
fields the verified logic reads, with the default values of the source. -/
structure BotConfig where
  SIGNUP_URL : String := "https://app.calebandbrown.com/signup"
  HEADLESS : Bool := false
  MAX_NAV_RETRIES : Nat := 3
  KEEP_BROWSER_OPEN_ON_SUCCESS : Bool := false
  CSV_FIELDS : List String :=
    ["timestamp", "phone_used", "email", "password",
     "first_name", "last_name", "country", "notes"]
deriving Repr

/- ------------------------------------------------------------------ -/
/- NavigationEngine: BasePage.robust_goto                              -/
/- ------------------------------------------------------------------ -/

/-- Outcome the world produces for one page.goto attempt: the load succeeds,
or a PlaywrightTimeoutError is raised, or some other exception is raised. -/
inductive GotoResult where
  | success
  | timeout (e : PyExn)
  | failure (e : PyExn)
deriving DecidableEq, Repr

/-- The backoff computed by robust_goto after a timeout on a given attempt:
backoff = min(2 * attempt, 8). -/
def navBackoff (attempt : Nat) : Nat := min (2 * attempt) 8

/-- The total sleep performed by robust_goto after a failed attempt `a`:
after a timeout it sleeps backoff + jitter, after any other error it sleeps
1.0 + jitter, where the jitter is the drawn random.uniform(0, 0.5) value. -/
def navSleep (res : Nat → GotoResult) (jitter : Nat → ℚ) (a : Nat) : ℚ :=
  match res a with
  | GotoResult.timeout _ => (navBackoff a : ℚ) + jitter a
  | _ => 1 + jitter a

/-- The retry loop of BasePage.robust_goto: `attempt` is the 1-based loop
counter, the fuel is the number of remaining attempts.  Returns the boolean
result of robust_goto together with the list of sleeps performed.  The
post-success waits (networkidle, page optimization) swallow their own
errors in the source and are modelled as no-ops. -/
def gotoLoop (res : Nat → GotoResult) (jitter : Nat → ℚ) :
    Nat → Nat → Bool × List ℚ
  | _, 0 => (false, [])
  | attempt, fuel + 1 =>
    match res attempt with
    | GotoResult.success => (true, [])
    | GotoResult.timeout _ =>
        let rest := gotoLoop res jitter (attempt + 1) fuel
        (rest.1, ((navBackoff attempt : ℚ) + jitter attempt) :: rest.2)
    | GotoResult.failure _ =>
        let rest := gotoLoop res jitter (attempt + 1) fuel
        (rest.1, (1 + jitter attempt) :: rest.2)

/-- BasePage.robust_goto: attempts page.goto up to MAX_NAV_RETRIES times,
returning whether any attempt succeeded and the backoff sleeps performed.
Every exception of an attempt is caught inside the loop, so the function is
total: it returns a boolean and never raises. -/
def robust_goto (cfg : BotConfig) (res : Nat → GotoResult) (jitter : Nat → ℚ) :
    Bool × List ℚ :=
  gotoLoop res jitter 1 cfg.MAX_NAV_RETRIES

/- ------------------------------------------------------------------ -/
/- DurableSink: CsvOutputWriter                                        -/
/- ------------------------------------------------------------------ -/

/-- The contents of a CSV file: its rows, each a list of cell strings. -/
abbrev CsvFile := List (List String)

/-- CsvOutputWriter._initialize_file: if the file does not exist, create it
and write the header row; on an IOError while creating, log and re-raise.
If the file exists nothing is opened or written. -/
def init_file (file : Option CsvFile) (fieldnames : List String)
    (io : Option PyExn) : Except PyExn (Option CsvFile) :=
  match file with
  | some contents => Except.ok (some contents)
  | none =>
    match io with
    | none => Except.ok (some [fieldnames])
    | some e => Except.error e

/-- One row as csv.DictWriter.writerow lays it out: the data mapping read
out in fieldnames order. -/
def dictRow (fieldnames : List String) (data : String → String) : List String :=
  fieldnames.map data

/-- Result of CsvOutputWriter.write_row: the new file contents and the
exception it let escape (always none: the source catches IOError and
Exception and only logs them). -/
structure WriteRowResult where
  file : Option CsvFile
  raised : Option PyExn
deriving Repr

/-- CsvOutputWriter.write_row: open the file in append mode and append one
row; any IOError or other exception is caught and logged, so on an I/O
failure the row is silently lost and nothing propagates.  Append mode
creates a missing file, so an absent file becomes a file with just this
row. -/
def write_row (file : Option CsvFile) (fieldnames : List String)
    (data : String → String) (io : Option PyExn) : WriteRowResult :=
  match io with
  | some _ => { file := file, raised := none }
  | none =>
      { file := some ((file.getD []) ++ [dictRow fieldnames data]),
        raised := none }

/- ------------------------------------------------------------------ -/
/- IdentityGenerator: DataGenerator._generate_strong_password          -/
/- ------------------------------------------------------------------ -/

/-- The specials string of _generate_strong_password. -/
def password_specials : List Char := "!@#$%&*()_+-=<>?@!$!".data

/-- The three complexity fix-ups of _generate_strong_password applied to the
drawn base: if no uppercase, set the first character to S; then if no
lowercase, replace the last character with a; then if no digit, append
str(d) for the drawn d = random.randint(1, 9). -/
def ensure_complexity (base : List Char) (d : Nat) : List Char :=
  let b1 := if base.any Char.isUpper then base else 'S' :: base.tail
  let b2 := if b1.any Char.isLower then b1 else b1.dropLast ++ ['a']
  if b2.any Char.isDigit then b2 else b2 ++ (toString d).data

/-- DataGenerator._generate_strong_password with all random draws passed
explicitly: the alphanumeric base (random length 8..11), the digit d used
by the digit fix-up, the drawn specials part (length 3..6 over
password_specials) and the insertion position.  The password is
base[:pos] + specials + base[pos:] capped to 18 characters. -/
def generate_strong_password (baseDraw : List Char) (d : Nat)
    (sp : List Char) (pos : Nat) : List Char :=
  let base := ensure_complexity baseDraw d
  let password := base.take pos ++ sp ++ base.drop pos
  password.take 18

/- ------------------------------------------------------------------ -/
/- BrowserSession: BrowserManager                                      -/
/- ------------------------------------------------------------------ -/

/-- Completed browser-process operations performed by BrowserManager. -/
inductive BMEvent where
  | shutdown
  | launch
deriving DecidableEq, Repr

/-- The settings BrowserManager.new_context applies to a created context.
A `none` in an optional field means the call left the corresponding
Playwright default in place rather than overriding it. -/
structure ContextInfo where
  viewportWidth : Nat
  viewportHeight : Nat
  javaScriptEnabled : Option Bool
  userAgent : Option String
  requestBlockingInstalled : Bool
deriving DecidableEq, Repr

/-- Stands for the string playwright.devices entry for Desktop Chrome, key
user_agent, an opaque external constant. -/
def desktop_chrome_user_agent : String := "DesktopChromeUserAgent"

/-- World outcomes for one BrowserManager.new_context call: whether the
first browser.new_context raises, whether the launch() of the recovery
relaunch raises, and whether the retried browser.new_context raises. -/
structure NewContextEnv where
  first_try : Option PyExn
  relaunch : Option PyExn
  retry_try : Option PyExn
deriving Repr

/-- Result of BrowserManager.new_context: the produced context (or the
escaping exception), the completed browser-process operations, and how many
browser.new_context calls were made. -/
structure NewContextResult where
  result : Except PyExn ContextInfo
  events : List BMEvent
  contextCalls : Nat
deriving Repr

/-- BrowserManager.new_context: create a context with the fixed viewport,
java_script_enabled=True and the Desktop Chrome user agent, and install
request blocking.  If creation raises: shut down the browser, relaunch it
(launch re-raises its own failure), then retry browser.new_context exactly
once — the retry passes only the viewport — install request blocking and
return; a failure of the retry propagates. -/
def new_context (env : NewContextEnv) : NewContextResult :=
  match env.first_try with
  | none =>
      { result := Except.ok
          { viewportWidth := 1200, viewportHeight := 820,
            javaScriptEnabled := some true,
            userAgent := some desktop_chrome_user_agent,
            requestBlockingInstalled := true },
        events := [], contextCalls := 1 }
  | some _ =>
      match env.relaunch with
      | some e2 =>
          { result := Except.error e2, events := [BMEvent.shutdown],
            contextCalls := 1 }
      | none =>
          match env.retry_try with
          | some e3 =>
              { result := Except.error e3,
                events := [BMEvent.shutdown, BMEvent.launch],
                contextCalls := 2 }
          | none =>
              { result := Except.ok
                  { viewportWidth := 1200, viewportHeight := 820,
                    javaScriptEnabled := none,
                    userAgent := none,
                    requestBlockingInstalled := true },
                events := [BMEvent.shutdown, BMEvent.launch],
                contextCalls := 2 }

/-- The resource types aborted by _setup_request_blocking. -/
def blocked_resource_types : List String := ["image", "media", "font"]

/-- The tracker host deny-list of _setup_request_blocking. -/
def blocked_hosts : List String :=
  ["google-analytics.com", "googletagmanager.com", "hotjar.com",
   "facebook.net", "doubleclick.net", "bing.com", "quantserve.com"]

/-- Decision taken by the route handler for one request. -/
inductive RouteAction where
  | abort
  | continue_
deriving DecidableEq, Repr

/-- The route_handler closure installed by _setup_request_blocking: abort
requests whose resource type is in the blocked list or whose lowercased URL
contains a blocked host, continue everything else. -/
def route_handler (resourceType url : String) : RouteAction :=
  if blocked_resource_types.contains resourceType then RouteAction.abort
  else if blocked_hosts.any (fun host => strContainsLower url host) then
    RouteAction.abort
  else RouteAction.continue_

/- ------------------------------------------------------------------ -/
/- FormInteractionEngine: SignUpPage                                   -/
/- ------------------------------------------------------------------ -/

/-- World outcomes for one SignUpPage.fill_form call: the boolean results of
the two country-selection strategies (each swallows its own exceptions and
returns a bool), and for each of the five field fills the exception it
raises, if any. -/
structure FormEnv where
  country_typing : Bool
  country_js : Bool
  first_name_fill : Option PyExn
  last_name_fill : Option PyExn
  email_fill : Option PyExn
  password_fill : Option PyExn
  confirm_pass_fill : Option PyExn
deriving Repr

/-- SignUpPage.select_country: try the typing strategy, then the JS
strategy; first success wins, both failing yields False (only a warning is
logged). -/
def select_country (fe : FormEnv) : Bool :=
  if fe.country_typing then true
  else if fe.country_js then true
  else false

/-- SignUpPage.fill_form: dismiss popups (best effort), run select_country
ignoring its result apart from a warning, then fill first name, last name,
email, password and password confirmation in order; the first exception
aborts the whole fill and returns False.  The second component records
which fields were filled before the outcome was decided. -/
def fill_form (fe : FormEnv) : Bool × List String :=
  let _country_ok := select_country fe
  match fe.first_name_fill with
  | some _ => (false, [])
  | none =>
    match fe.last_name_fill with
    | some _ => (false, ["first_name"])
    | none =>
      match fe.email_fill with
      | some _ => (false, ["first_name", "last_name"])
      | none =>
        match fe.password_fill with
        | some _ => (false, ["first_name", "last_name", "email"])
        | none =>
          match fe.confirm_pass_fill with
          | some _ => (false, ["first_name", "last_name", "email", "password"])
          | none =>
              (true, ["first_name", "last_name", "email", "password",
                      "confirm_password"])

/- ------------------------------------------------------------------ -/
/- PhoneVerificationPage                                               -/
/- ------------------------------------------------------------------ -/

/-- World outcome of waiting for the phone input: it becomes visible, the
wait times out (PlaywrightTimeoutError), or some other exception is
raised. -/
inductive WaitOutcome where
  | visible
  | timeout
  | raised (e : PyExn)
deriving DecidableEq, Repr

/-- PhoneVerificationPage.wait_for_page: waits ~8s for the phone input;
only a PlaywrightTimeoutError is caught (returning False), any other
exception propagates. -/
def wait_for_page (w : WaitOutcome) : Except PyExn Bool :=
  match w with
  | WaitOutcome.visible => Except.ok true
  | WaitOutcome.timeout => Except.ok false
  | WaitOutcome.raised e => Except.error e

/-- The page interactions performed by PhoneVerificationPage.submit_phone. -/
inductive PhoneAction where
  | click
  | clear
  | typeChar (c : Char)
  | clickSendCode
  | waitSeconds (s : Nat)
deriving DecidableEq, Repr

/-- The full interaction sequence of a successful submit_phone: click the
input, clear it, type the number character by character, click Send code,
then sleep the fixed 10 seconds. -/
def phoneActionsFor (phone : String) : List PhoneAction :=
  [PhoneAction.click, PhoneAction.clear] ++
    phone.data.map PhoneAction.typeChar ++
    [PhoneAction.clickSendCode, PhoneAction.waitSeconds 10]

/-- PhoneVerificationPage.submit_phone: on a clean run it performs the full
action sequence and returns the fixed success tag; if the world raises an
exception after `k` of the actions, the remaining actions are skipped and
the tag phone_step_exception:<type> is returned (the exception is caught
inside submit_phone). -/
def submit_phone (exc : Option (Nat × PyExn)) (phone : String) :
    String × List PhoneAction :=
  match exc with
  | none => ("send_code_clicked_waited_10s", phoneActionsFor phone)
  | some (k, e) =>
      ("phone_step_exception:" ++ e.name, (phoneActionsFor phone).take k)

/- ------------------------------------------------------------------ -/
/- WorkflowOrchestrator: AccountCreator                                -/
/- ------------------------------------------------------------------ -/

/-- The non-phone data drawn by DataGenerator.generate_account_data for one
attempt (faker names, derived email, generated password, random country,
current timestamp). -/
structure GenData where
  first_name : String
  last_name : String
  email : String
  password : String
  country : String
  timestamp : String
deriving Repr

/-- The AccountData dataclass. -/
structure AccountData where
  first_name : String
  last_name : String
  email : String
  password : String
  country : String
  phone : Option String := none
  timestamp : String := ""
deriving Repr

/-- DataGenerator.generate_account_data: packages the drawn data together
with the phone number of the attempt. -/
def generate_account_data (g : GenData) (phone_number : Option String) :
    AccountData :=
  { first_name := g.first_name, last_name := g.last_name, email := g.email,
    password := g.password, country := g.country, phone := phone_number,
    timestamp := g.timestamp }

/-- One persisted outcome record, mirroring the dict passed to
output_writer.write_row in the finally block. -/
structure OutcomeRow where
  timestamp : String
  phone_used : String
  email : String
  password : String
  first_name : String
  last_name : String
  country : String
  notes : String
deriving DecidableEq, Repr

/-- The outcome record built in the finally block of run_single_account. -/
def outcomeRowFor (data : AccountData) (notes : String) : OutcomeRow :=
  { timestamp := data.timestamp, phone_used := data.phone.getD "",
    email := data.email, password := data.password,
    first_name := data.first_name, last_name := data.last_name,
    country := data.country, notes := notes }

/-- The browser-closed test of the exception handler of
run_single_account. -/
def browser_closed_msg (e : PyExn) : Bool :=
  strContains e.msg "Target closed" || strContains e.msg "Browser has been closed"

/-- The characters of a URL before its first question mark. -/
def takeUntilQm : List Char → List Char
  | [] => []
  | c :: cs => if c = '?' then [] else c :: takeUntilQm cs

/-- The Python url.split with separator ? taking element 0: the part of the
URL before the query string. -/
def url_without_query (u : String) : String := ⟨takeUntilQm u.data⟩

/-- The no-phone post-submit classification of run_single_account: an email
verification prompt beats a URL change beats the unknown tag. -/
def classify_post_submit (cfg : BotConfig) (content : String) (url : String) :
    String :=
  if strContainsLower content "verify" ||
      strContainsLower content "check your email" then
    "verification_prompt_detected_no_phone"
  else if url ≠ cfg.SIGNUP_URL then
    "navigated_to:" ++ url_without_query url
  else
    "unknown_post_submit_state_no_phone"

/-- How the try block of run_single_account finishes when no exception
escapes it: when KEEP_BROWSER_OPEN_ON_SUCCESS is set and the run is not
headless it pauses and then returns False (stop the batch), otherwise it
returns True. -/
inductive TryExit where
  | ret (b : Bool)
  | exc (e : PyExn)
deriving DecidableEq, Repr

/-- The return value of the try block on its success paths. -/
def successExit (cfg : BotConfig) : TryExit :=
  if cfg.KEEP_BROWSER_OPEN_ON_SUCCESS && !cfg.HEADLESS then TryExit.ret false
  else TryExit.ret true

/-- The state of one attempt when control leaves the try block of
run_single_account: the current value of the notes variable, how the block
exited, whether the context variable was assigned, the completed browser
operations, the milestones reached, and the phone-page interactions. -/
structure TryState where
  notes : String
  exit : TryExit
  contextSet : Bool
  events : List BMEvent
  steps : List String
  phoneActions : List PhoneAction
deriving Repr

/-- World outcomes for one run_single_account attempt. -/
structure AttemptEnv where
  nc : NewContextEnv
  new_page : Option PyExn
  navRes : Nat → GotoResult
  navJitter : Nat → ℚ
  form : FormEnv
  submit : Bool
  phone_wait : WaitOutcome
  phone_exc : Option (Nat × PyExn)
  page_content : Except PyExn String
  page_url : String
  handler_relaunch : Option PyExn

/-- The try block of AccountCreator.run_single_account: create a context
and page, navigate, fill, submit, then run the post-submit logic (phone
sub-flow if a phone is present, content/URL classification otherwise).
Stage failures set notes to the stage tag and raise; notes stays at the
init placeholder when an exception is raised before any classification. -/
def tryBody (cfg : BotConfig) (env : AttemptEnv) (data : AccountData) :
    TryState :=
  let ncr := new_context env.nc
  match ncr.result with
  | Except.error e =>
      { notes := "init", exit := TryExit.exc e, contextSet := false,
        events := ncr.events, steps := [], phoneActions := [] }
  | Except.ok _ =>
    match env.new_page with
    | some e =>
        { notes := "init", exit := TryExit.exc e, contextSet := true,
          events := ncr.events, steps := ["new_context"], phoneActions := [] }
    | none =>
      if (robust_goto cfg env.navRes env.navJitter).1 then
        if (fill_form env.form).1 then
          if env.submit then
            match data.phone with
            | some p =>
              match wait_for_page env.phone_wait with
              | Except.error e =>
                  { notes := "init", exit := TryExit.exc e, contextSet := true,
                    events := ncr.events,
                    steps := ["new_context", "new_page", "navigate",
                              "fill_form", "submit_form", "phone_wait"],
                    phoneActions := [] }
              | Except.ok false =>
                  { notes := "phone_input_not_found", exit := successExit cfg,
                    contextSet := true, events := ncr.events,
                    steps := ["new_context", "new_page", "navigate",
                              "fill_form", "submit_form", "phone_wait"],
                    phoneActions := [] }
              | Except.ok true =>
                  let pr := submit_phone env.phone_exc p
                  { notes := pr.1, exit := successExit cfg,
                    contextSet := true, events := ncr.events,
                    steps := ["new_context", "new_page", "navigate",
                              "fill_form", "submit_form", "phone_wait",
                              "submit_phone"],
                    phoneActions := pr.2 }
            | none =>
              match env.page_content with
              | Except.error e =>
                  { notes := "init", exit := TryExit.exc e, contextSet := true,
                    events := ncr.events,
                    steps := ["new_context", "new_page", "navigate",
                              "fill_form", "submit_form", "classify"],
                    phoneActions := [] }
              | Except.ok content =>
                  { notes := classify_post_submit cfg content env.page_url,
                    exit := successExit cfg, contextSet := true,
                    events := ncr.events,
                    steps := ["new_context", "new_page", "navigate",
                              "fill_form", "submit_form", "classify"],
                    phoneActions := [] }
          else
            { notes := "submit_failed",
              exit := TryExit.exc { name := "Exception", msg := "SubmitFailed" },
              contextSet := true, events := ncr.events,
              steps := ["new_context", "new_page", "navigate", "fill_form",
                        "submit_form"],
              phoneActions := [] }
        else
          { notes := "form_fill_failed",
            exit := TryExit.exc { name := "Exception", msg := "FormFillFailed" },
            contextSet := true, events := ncr.events,
            steps := ["new_context", "new_page", "navigate", "fill_form"],
            phoneActions := [] }
      else
        { notes := "nav_failed",
          exit := TryExit.exc { name := "Exception", msg := "NavigationFailed" },
          contextSet := true, events := ncr.events,
          steps := ["new_context", "new_page", "navigate"],
          phoneActions := [] }

/-- Result of one AccountCreator.run_single_account call: the outcome
records passed to the output writer, the value the call produced
(.ok continue-flag, or .error when an exception escaped it), the completed
browser operations, whether the context was closed by the finally block,
the milestones reached and the phone-page interactions. -/
structure AttemptResult where
  rows : List OutcomeRow
  outcome : Except PyExn Bool
  events : List BMEvent
  contextClosed : Bool
  steps : List String
  phoneActions : List PhoneAction
deriving Repr

/-- AccountCreator.run_single_account: run the try block; on an exception,
relaunch the whole browser when the message matches the browser-closed
condition (shutdown never raises, but launch re-raises its own failure, in
which case the notes fix-up is skipped and the exception escapes after the
finally block), otherwise only fix up notes; the finally block always
writes exactly one outcome record and closes the context unless the
keep-open override is active. -/
def run_single_account (cfg : BotConfig) (env : AttemptEnv) (g : GenData)
    (phone_number : Option String) : AttemptResult :=
  let data := generate_account_data g phone_number
  let ts := tryBody cfg env data
  let keepOpen := cfg.KEEP_BROWSER_OPEN_ON_SUCCESS && !cfg.HEADLESS
  match ts.exit with
  | TryExit.ret b =>
      { rows := [outcomeRowFor data ts.notes], outcome := Except.ok b,
        events := ts.events, contextClosed := ts.contextSet && !keepOpen,
        steps := ts.steps, phoneActions := ts.phoneActions }
  | TryExit.exc e =>
      if browser_closed_msg e then
        match env.handler_relaunch with
        | some e2 =>
            { rows := [outcomeRowFor data ts.notes],
              outcome := Except.error e2,
              events := ts.events ++ [BMEvent.shutdown],
              contextClosed := ts.contextSet && !keepOpen,
              steps := ts.steps, phoneActions := ts.phoneActions }
        | none =>
            let notes :=
              if ts.notes = "init" then "flow_exception:" ++ e.name
              else ts.notes
            { rows := [outcomeRowFor data notes], outcome := Except.ok true,
              events := ts.events ++ [BMEvent.shutdown, BMEvent.launch],
              contextClosed := ts.contextSet && !keepOpen,
              steps := ts.steps, phoneActions := ts.phoneActions }
      else
        let notes :=
          if ts.notes = "init" then "flow_exception:" ++ e.name
          else ts.notes
        { rows := [outcomeRowFor data notes], outcome := Except.ok true,
          events := ts.events, contextClosed := ts.contextSet && !keepOpen,
          steps := ts.steps, phoneActions := ts.phoneActions }

/-- The batch loop body of AccountCreator.run over the remaining phone
numbers, with `i` the index of the next attempt: returns the outcome
records written, the number of attempts started, and the exception escaping
the loop, if any.  A False continue-flag stops the loop; an escaping
exception aborts it. -/
def runLoop (cfg : BotConfig) (envs : Nat → AttemptEnv) (gens : Nat → GenData) :
    List String → Nat → List OutcomeRow × Nat × Option PyExn
  | [], _ => ([], 0, none)
  | p :: ps, i =>
      let r := run_single_account cfg (envs i) (gens i) (some p)
      match r.outcome with
      | Except.error e => (r.rows, 1, some e)
      | Except.ok false => (r.rows, 1, none)
      | Except.ok true =>
          let rest := runLoop cfg envs gens ps (i + 1)
          (r.rows ++ rest.1, rest.2.1 + 1, rest.2.2)

/-- AccountCreator.run: with an empty queue run exactly one attempt without
a phone number, otherwise loop over the queue. -/
def runBatch (cfg : BotConfig) (envs : Nat → AttemptEnv) (gens : Nat → GenData)
    (phone_numbers : List String) : List OutcomeRow × Nat × Option PyExn :=
  match phone_numbers with
  | [] =>
      let r := run_single_account cfg (envs 0) (gens 0) none
      (r.rows, 1,
        match r.outcome with
        | Except.error e => some e
        | Except.ok _ => none)
  | p :: ps => runLoop cfg envs gens (p :: ps) 0

/- ------------------------------------------------------------------ -/
/- Concrete worlds used by witnesses and counterexamples               -/
/- ------------------------------------------------------------------ -/

/-- A fixed draw of generated identity data. -/
def gen0 : GenData :=
  { first_name := "Alice", last_name := "Doe",
    email := "alice.doe42@gmail.com", password := "Xy7A!@#bcd",
    country := "France", timestamp := "2024-01-01T00:00:00Z" }

/-- A form world in which the typed country strategy and every field fill
succeed. -/
def benignForm : FormEnv :=
  { country_typing := true, country_js := false, first_name_fill := none,
    last_name_fill := none, email_fill := none, password_fill := none,
    confirm_pass_fill := none }

/-- A world in which every browser interaction of the attempt succeeds. -/
def benignEnv : AttemptEnv :=
  { nc := { first_try := none, relaunch := none, retry_try := none },
    new_page := none,
    navRes := fun _ => GotoResult.success,
    navJitter := fun _ => 0,
    form := benignForm,
    submit := true,
    phone_wait := WaitOutcome.visible,
    phone_exc := none,
    page_content := Except.ok "",
    page_url := "https://app.calebandbrown.com/signup",
    handler_relaunch := none }

/-- A world in which context.new_page raises a browser-closed error and the
recovery launch() inside the exception handler raises as well. -/
def relaunchFailEnv : AttemptEnv :=
  { benignEnv with
    new_page := some { name := "PlaywrightError", msg := "Target closed" },
    handler_relaunch := some { name := "Exception", msg := "chromium launch failed" } }

/-- A world in which context.new_page raises a browser-closed error and the
recovery relaunch succeeds. -/
def browserClosedEnv : AttemptEnv :=
  { benignEnv with
    new_page := some { name := "PlaywrightError", msg := "Target closed" } }

/- ------------------------------------------------------------------ -/
/- C3: robust_goto retry and backoff                                   -/
/- ------------------------------------------------------------------ -/

/-- When every attempt in range fails, the goto loop returns False with one
sleep per attempt. -/
theorem gotoLoop_all_fail (res : Nat → GotoResult) (jitter : Nat → ℚ) :
    ∀ (fuel attempt : Nat), (∀ a, res a ≠ GotoResult.success) →
      gotoLoop res jitter attempt fuel =
        (false, (List.range' attempt fuel).map (navSleep res jitter)) := by
  intro fuel
  induction fuel with
  | zero => intro attempt _; simp [gotoLoop]
  | succ n ih =>
      intro attempt h
      unfold gotoLoop
      cases hres : res attempt with
      | success => exact absurd hres (h attempt)
      | timeout e =>
          simp [ih (attempt + 1) h, List.range'_succ, navSleep, hres]
      | failure e =>
          simp [ih (attempt + 1) h, List.range'_succ, navSleep, hres]

/-- C3: if every page-load attempt fails, robust_goto returns False (it is
a total boolean function, it never raises) after exactly MAX_NAV_RETRIES
attempts, performing one sleep per attempt; a timed-out attempt a sleeps
min(2a, 8) plus its jitter, hence at most 8.5 seconds, a non-timeout error
sleeps a flat 1 second plus jitter; the deterministic backoff is
monotonically non-decreasing in the attempt number, and over the attempt
range reachable with the default retry count the full timeout sleeps are
non-decreasing as well. -/
theorem robust_goto_all_fail_spec (cfg : BotConfig) (res : Nat → GotoResult)
    (jitter : Nat → ℚ)
    (hfail : ∀ a, res a ≠ GotoResult.success)
    (hj0 : ∀ a, 0 ≤ jitter a) (hj1 : ∀ a, jitter a ≤ 1 / 2) :
    (robust_goto cfg res jitter).1 = false ∧
    (robust_goto cfg res jitter).2 =
      (List.range' 1 cfg.MAX_NAV_RETRIES).map (navSleep res jitter) ∧
    (robust_goto cfg res jitter).2.length = cfg.MAX_NAV_RETRIES ∧
    (∀ a e, res a = GotoResult.timeout e →
      navSleep res jitter a = (navBackoff a : ℚ) + jitter a ∧
      navSleep res jitter a ≤ 17 / 2) ∧
    (∀ a e, res a = GotoResult.failure e →
      navSleep res jitter a = 1 + jitter a) ∧
    (∀ a b, a ≤ b → navBackoff a ≤ navBackoff b) ∧
    (∀ a b ea eb, res a = GotoResult.timeout ea → res b = GotoResult.timeout eb →
      a < b → b ≤ 4 → navSleep res jitter a ≤ navSleep res jitter b) := by
  have hloop := gotoLoop_all_fail res jitter cfg.MAX_NAV_RETRIES 1 hfail
  refine ⟨?_, ?_, ?_, ?_, ?_, ?_, ?_⟩
  · simp [robust_goto, hloop]
  · simp [robust_goto, hloop]
  · simp [robust_goto, hloop]
  · intro a e ha
    constructor
    · simp [navSleep, ha]
    · simp only [navSleep, ha]
      have h8 : (navBackoff a : ℚ) ≤ 8 := by
        have : navBackoff a ≤ 8 := Nat.min_le_right _ _
        exact_mod_cast this
      have := hj1 a
      linarith
  · intro a e ha
    simp [navSleep, ha]
  · intro a b hab
    exact min_le_min (Nat.mul_le_mul_left 2 hab) le_rfl
  · intro a b ea eb ha hb hlt hb4
    simp only [navSleep, ha, hb]
    have hba : navBackoff a ≤ 2 * a := Nat.min_le_left _ _
    have hbb : navBackoff b = 2 * b := Nat.min_eq_left (by omega)
    have hcast : (navBackoff a : ℚ) ≤ 2 * (a : ℚ) := by exact_mod_cast hba
    have hlt' : (a : ℚ) + 1 ≤ (b : ℚ) := by exact_mod_cast hlt
    have := hj1 a
    have := hj0 b
    rw [hbb]
    push_cast
    linarith

/-- Witness for robust_goto_all_fail_spec: with the default configuration,
a world that times out on every attempt and zero jitter, navigation fails
after exactly three sleeping attempts. -/
theorem robust_goto_all_fail_spec_witness :
    (robust_goto {} (fun _ => GotoResult.timeout { name := "TimeoutError", msg := "t" })
        (fun _ => 0)).1 = false ∧
    (robust_goto {} (fun _ => GotoResult.timeout { name := "TimeoutError", msg := "t" })
        (fun _ => 0)).2.length = 3 := by
  have h := robust_goto_all_fail_spec {}
    (fun _ => GotoResult.timeout { name := "TimeoutError", msg := "t" })
    (fun _ => 0) (fun a => by simp) (fun a => le_refl 0) (fun a => by norm_num)
  exact ⟨h.1, h.2.2.1⟩

/- ------------------------------------------------------------------ -/
/- C8: CsvOutputWriter initialization and append                       -/
/- ------------------------------------------------------------------ -/

/-- C8: output-file initialization is idempotent: with an existing file the
constructor leaves the contents untouched (nothing is opened, no header is
rewritten); the header row is written only when the file is first created;
and a write appends exactly one row. -/
theorem csv_init_idempotent_append :
    (∀ (contents : CsvFile) (fieldnames : List String) (io : Option PyExn),
        init_file (some contents) fieldnames io = Except.ok (some contents)) ∧
    (∀ fieldnames : List String,
        init_file none fieldnames none = Except.ok (some [fieldnames])) ∧
    (∀ (contents : CsvFile) (fieldnames : List String) (data : String → String),
        (write_row (some contents) fieldnames data none).file =
          some (contents ++ [dictRow fieldnames data]) ∧
        (contents ++ [dictRow fieldnames data]).length = contents.length + 1) := by
  refine ⟨fun _ _ _ => rfl, fun _ => rfl, fun c f d => ⟨rfl, by simp⟩⟩

/- ------------------------------------------------------------------ -/
/- C10: write_row never propagates                                     -/
/- ------------------------------------------------------------------ -/

/-- C10: write_row is total from the caller's view: whatever the I/O world
does, no exception escapes it, and when the write fails the file is left
unchanged — the row is silently lost. -/
theorem write_row_total_never_raises :
    (∀ (file : Option CsvFile) (fieldnames : List String)
        (data : String → String) (io : Option PyExn),
        (write_row file fieldnames data io).raised = none) ∧
    (∀ (file : Option CsvFile) (fieldnames : List String)
        (data : String → String) (e : PyExn),
        (write_row file fieldnames data (some e)).file = file) := by
  constructor
  · intro file f d io; cases io <;> rfl
  · intro file f d e; rfl

/- ------------------------------------------------------------------ -/
/- C9: the strong-password generator                                   -/
/- ------------------------------------------------------------------ -/

/-- For a drawn digit 1..9, str(d) is a single digit character. -/
theorem digit_toList (d : Nat) (h1 : 1 ≤ d) (h2 : d ≤ 9) :
    (toString d).data.length = 1 ∧ (toString d).data.any Char.isDigit = true := by
  interval_cases d <;> exact ⟨rfl, rfl⟩

/-- What the complexity fix-ups guarantee about the fixed-up base: the
length is preserved up to the one appended digit, a lowercase letter and a
digit are always present, and an uppercase letter is present unless the
draw had no lowercase letter and its only uppercase letters sat in the
final position (which the lowercase fix-up overwrites). -/
theorem ensure_complexity_spec (base : List Char) (d : Nat)
    (h8 : 8 ≤ base.length) (hd1 : 1 ≤ d) (hd2 : d ≤ 9) :
    8 ≤ (ensure_complexity base d).length ∧
    (ensure_complexity base d).length ≤ base.length + 1 ∧
    (∃ c ∈ ensure_complexity base d, c.isLower = true) ∧
    (∃ c ∈ ensure_complexity base d, c.isDigit = true) ∧
    ((base.any Char.isUpper = false ∨ base.any Char.isLower = true ∨
        base.dropLast.any Char.isUpper = true) →
      ∃ c ∈ ensure_complexity base d, c.isUpper = true) := by
  have hdlen := (digit_toList d hd1 hd2).1
  have hdany := (digit_toList d hd1 hd2).2
  simp only [ensure_complexity]
  set b1 := if base.any Char.isUpper then base else 'S' :: base.tail with hb1def
  have hb1len : b1.length = base.length := by
    rw [hb1def]; split
    · rfl
    · simp only [List.length_cons, List.length_tail]; omega
  set b2 := if b1.any Char.isLower then b1 else b1.dropLast ++ ['a'] with hb2def
  have hb2len : b2.length = base.length := by
    rw [hb2def]; split
    · exact hb1len
    · simp only [List.length_append, List.length_dropLast, List.length_cons,
        List.length_nil]
      omega
  have hlow : ∃ c ∈ b2, c.isLower = true := by
    rw [hb2def]; split
    · next h => exact List.any_eq_true.mp h
    · exact ⟨'a', by simp, rfl⟩
  have hup : (base.any Char.isUpper = false ∨ base.any Char.isLower = true ∨
      base.dropLast.any Char.isUpper = true) → ∃ c ∈ b2, c.isUpper = true := by
    intro hyp
    by_cases hU : base.any Char.isUpper = true
    · have hb1 : b1 = base := by rw [hb1def, if_pos hU]
      rw [hb2def]; split
      · next h => rw [hb1]; exact List.any_eq_true.mp hU
      · next h =>
          rw [hb1] at h ⊢
          rcases hyp with hyp | hyp | hyp
          · rw [hU] at hyp; cases hyp
          · rw [hyp] at h; cases h rfl
          · obtain ⟨c, hc, hcu⟩ := List.any_eq_true.mp hyp
            exact ⟨c, List.mem_append.mpr (Or.inl hc), hcu⟩
    · have hU' : base.any Char.isUpper = false := by
        cases h : base.any Char.isUpper
        · rfl
        · exact absurd h hU
      have hb1 : b1 = 'S' :: base.tail := by rw [hb1def, if_neg hU]
      have htne : base.tail ≠ [] := by
        intro h
        have := List.length_tail base
        rw [h] at this
        simp at this
        omega
      rw [hb2def]; split
      · exact ⟨'S', by rw [hb1]; exact List.mem_cons_self _ _, rfl⟩
      · refine ⟨'S', ?_, rfl⟩
        rw [hb1, List.dropLast_cons_of_ne_nil htne]
        exact List.mem_append.mpr (Or.inl (List.mem_cons_self _ _))
  split
  · next hD =>
      exact ⟨by omega, by omega, hlow, List.any_eq_true.mp hD, hup⟩
  · next hD =>
      refine ⟨?_, ?_, ?_, ?_, ?_⟩
      · simp only [List.length_append]; omega
      · simp only [List.length_append]; omega
      · obtain ⟨c, hc, hcl⟩ := hlow
        exact ⟨c, List.mem_append.mpr (Or.inl hc), hcl⟩
      · obtain ⟨c, hc, hcd⟩ := List.any_eq_true.mp hdany
        exact ⟨c, List.mem_append.mpr (Or.inr hc), hcd⟩
      · intro hyp
        obtain ⟨c, hc, hcu⟩ := hup hyp
        exact ⟨c, List.mem_append.mpr (Or.inl hc), hcu⟩

/-- C9 (amended): for every valid random draw the generated password has
length between 11 and 18 (in fact the length cap never truncates), contains
at least one lowercase letter, at least one digit and at least three
characters from the special set; it contains an uppercase letter whenever
the drawn base either had no uppercase letter (the S fix-up fires), or had
a lowercase letter (the a fix-up does not fire), or had an uppercase letter
away from its final position — the one exception, a base with no lowercase
whose only uppercase is its last character, loses the uppercase guarantee
because the lowercase fix-up overwrites that character. -/
theorem generate_strong_password_spec (baseDraw : List Char) (d : Nat)
    (sp : List Char) (pos : Nat)
    (hb8 : 8 ≤ baseDraw.length) (hb11 : baseDraw.length ≤ 11)
    (hbchars : ∀ c ∈ baseDraw, c.isUpper = true ∨ c.isLower = true ∨ c.isDigit = true)
    (hd1 : 1 ≤ d) (hd2 : d ≤ 9)
    (hsp3 : 3 ≤ sp.length) (hsp6 : sp.length ≤ 6)
    (hspc : ∀ c ∈ sp, password_specials.contains c = true)
    (hpos1 : 1 ≤ pos)
    (hpos2 : pos ≤ max 1 ((ensure_complexity baseDraw d).length - 1)) :
    11 ≤ (generate_strong_password baseDraw d sp pos).length ∧
    (generate_strong_password baseDraw d sp pos).length ≤ 18 ∧
    (generate_strong_password baseDraw d sp pos).any Char.isLower = true ∧
    (generate_strong_password baseDraw d sp pos).any Char.isDigit = true ∧
    3 ≤ ((generate_strong_password baseDraw d sp pos).filter
          (fun c => password_specials.contains c)).length ∧
    ((baseDraw.any Char.isUpper = false ∨ baseDraw.any Char.isLower = true ∨
        baseDraw.dropLast.any Char.isUpper = true) →
      (generate_strong_password baseDraw d sp pos).any Char.isUpper = true) := by
  obtain ⟨he8, heb, hlow, hdig, hup⟩ :=
    ensure_complexity_spec baseDraw d hb8 hd1 hd2
  set b := ensure_complexity baseDraw d with hbdef
  have hsplit : b.take pos ++ b.drop pos = b := List.take_append_drop pos b
  have hlenparts : (b.take pos).length + (b.drop pos).length = b.length := by
    rw [← List.length_append, hsplit]
  have hLlen : (b.take pos ++ sp ++ b.drop pos).length = b.length + sp.length := by
    simp only [List.length_append]; omega
  have hle18 : (b.take pos ++ sp ++ b.drop pos).length ≤ 18 := by omega
  have hpw : generate_strong_password baseDraw d sp pos =
      b.take pos ++ sp ++ b.drop pos := by
    simp only [generate_strong_password, ← hbdef]
    exact List.take_of_length_le hle18
  have hmemb : ∀ c ∈ b, c ∈ b.take pos ++ sp ++ b.drop pos := by
    intro c hc
    rw [← hsplit] at hc
    rcases List.mem_append.mp hc with h | h
    · exact List.mem_append.mpr (Or.inl (List.mem_append.mpr (Or.inl h)))
    · exact List.mem_append.mpr (Or.inr h)
  rw [hpw]
  refine ⟨by omega, hle18, ?_, ?_, ?_, ?_⟩
  · obtain ⟨c, hc, hcp⟩ := hlow
    exact List.any_eq_true.mpr ⟨c, hmemb c hc, hcp⟩
  · obtain ⟨c, hc, hcp⟩ := hdig
    exact List.any_eq_true.mpr ⟨c, hmemb c hc, hcp⟩
  · have hfsp : sp.filter (fun c => password_specials.contains c) = sp :=
      List.filter_eq_self.mpr hspc
    simp only [List.filter_append, hfsp, List.length_append]
    omega
  · intro hyp
    obtain ⟨c, hc, hcp⟩ := hup hyp
    exact List.any_eq_true.mpr ⟨c, hmemb c hc, hcp⟩

/-- Counterexample to C9 as stated: the perfectly valid draw with base
1234567A, digit 5, specials part with three characters and insertion
position 1 produces a password with no uppercase letter at all — the base
has no lowercase, so the fix-up replaces its final (and only uppercase)
character with a. -/
theorem generate_strong_password_no_uppercase_counterexample :
    (8 ≤ "1234567A".data.length ∧ "1234567A".data.length ≤ 11 ∧
      (∀ c ∈ "1234567A".data,
        c.isUpper = true ∨ c.isLower = true ∨ c.isDigit = true) ∧
      (1 : Nat) ≤ 5 ∧ (5 : Nat) ≤ 9 ∧
      3 ≤ "!@#".data.length ∧ "!@#".data.length ≤ 6 ∧
      (∀ c ∈ "!@#".data, password_specials.contains c = true) ∧
      (1 : Nat) ≤ 1 ∧
      1 ≤ max 1 ((ensure_complexity "1234567A".data 5).length - 1)) ∧
    (generate_strong_password "1234567A".data 5 "!@#".data 1).any
      Char.isUpper = false := by
  decide

/-- Witness for generate_strong_password_spec at a concrete draw whose base
already contains uppercase, lowercase and digits. -/
theorem generate_strong_password_spec_witness :
    8 ≤ "Ab1Cd2Ef".data.length ∧
    (generate_strong_password "Ab1Cd2Ef".data 5 "!@#".data 1).any
      Char.isLower = true ∧
    (generate_strong_password "Ab1Cd2Ef".data 5 "!@#".data 1).any
      Char.isUpper = true := by
  have h := generate_strong_password_spec "Ab1Cd2Ef".data 5 "!@#".data 1
    (by decide) (by decide) (by decide) (by decide) (by decide) (by decide)
    (by decide) (by decide) (by decide) (by decide)
  exact ⟨by decide, h.2.2.1, h.2.2.2.2.2 (by decide)⟩

/- ------------------------------------------------------------------ -/
/- Characterizing the notes written by an attempt                      -/
/- ------------------------------------------------------------------ -/

/-- The stage-failure tags of run_single_account. -/
def stageNotes (s : String) : Prop :=
  s = "nav_failed" ∨ s = "form_fill_failed" ∨ s = "submit_failed"

/-- The post-submit classification and phone-flow status tags. -/
def postNotes (s : String) : Prop :=
  s = "verification_prompt_detected_no_phone" ∨
  (∃ u, s = "navigated_to:" ++ u) ∨
  s = "unknown_post_submit_state_no_phone" ∨
  s = "phone_input_not_found" ∨
  s = "send_code_clicked_waited_10s" ∨
  (∃ t, s = "phone_step_exception:" ++ t)

/-- The notes values the specification allows in a persisted record. -/
def notesWellFormed (s : String) : Prop :=
  stageNotes s ∨ postNotes s ∨ (∃ t, s = "flow_exception:" ++ t)

/-- A tag built from a prefix of length at least five is neither the empty
string nor the init placeholder. -/
theorem append_tag_ne (p u : String) (hp : 5 ≤ p.length) :
    (p ++ u) ≠ "" ∧ (p ++ u) ≠ "init" := by
  constructor
  · intro h
    have hl := congrArg String.length h
    rw [String.length_append] at hl
    have h0 : ("" : String).length = 0 := rfl
    rw [h0] at hl
    omega
  · intro h
    have hl := congrArg String.length h
    rw [String.length_append] at hl
    have h4 : ("init" : String).length = 4 := rfl
    rw [h4] at hl
    omega

/-- No well-formed notes value is empty or the init placeholder. -/
theorem notesWellFormed_ne (s : String) (h : notesWellFormed s) :
    s ≠ "" ∧ s ≠ "init" := by
  rcases h with (h | h | h) | (h | ⟨u, h⟩ | h | h | h | ⟨t, h⟩) | ⟨t, h⟩ <;>
    subst h
  · exact ⟨by decide, by decide⟩
  · exact ⟨by decide, by decide⟩
  · exact ⟨by decide, by decide⟩
  · exact ⟨by decide, by decide⟩
  · exact append_tag_ne "navigated_to:" u (by decide)
  · exact ⟨by decide, by decide⟩
  · exact ⟨by decide, by decide⟩
  · exact ⟨by decide, by decide⟩
  · exact append_tag_ne "phone_step_exception:" t (by decide)
  · exact append_tag_ne "flow_exception:" t (by decide)

/-- The classification of the no-phone post-submit page state always yields
one of its three tags. -/
theorem classify_post_submit_cases (cfg : BotConfig) (content url : String) :
    postNotes (classify_post_submit cfg content url) := by
  unfold classify_post_submit postNotes
  split
  · exact Or.inl rfl
  · split
    · exact Or.inr (Or.inl ⟨url_without_query url, rfl⟩)
    · exact Or.inr (Or.inr (Or.inl rfl))

/-- submit_phone returns the fixed success tag or an exception tag. -/
theorem submit_phone_tag (exc : Option (Nat × PyExn)) (p : String) :
    (submit_phone exc p).1 = "send_code_clicked_waited_10s" ∨
    ∃ t, (submit_phone exc p).1 = "phone_step_exception:" ++ t := by
  cases exc with
  | none => exact Or.inl rfl
  | some ke =>
      obtain ⟨k, e⟩ := ke
      exact Or.inr ⟨e.name, rfl⟩

/-- The success return of the try block is never an exception. -/
theorem successExit_ne_exc (cfg : BotConfig) (e : PyExn) :
    successExit cfg ≠ TryExit.exc e := by
  unfold successExit
  split <;> simp

/-- Shape of the state at the end of the try block: either an exception
left it while notes still held the init placeholder, or an exception left
it carrying a stage-failure tag, or it finished normally carrying a
post-submit tag. -/
theorem tryBody_shape (cfg : BotConfig) (env : AttemptEnv) (data : AccountData) :
    ((tryBody cfg env data).notes = "init" ∧
      ∃ e, (tryBody cfg env data).exit = TryExit.exc e) ∨
    (stageNotes (tryBody cfg env data).notes ∧
      ∃ e, (tryBody cfg env data).exit = TryExit.exc e) ∨
    (postNotes (tryBody cfg env data).notes ∧
      (tryBody cfg env data).exit = successExit cfg) := by
  simp only [tryBody]
  split
  · exact Or.inl ⟨rfl, _, rfl⟩
  · split
    · exact Or.inl ⟨rfl, _, rfl⟩
    · split
      · split
        · split
          · split
            · split
              · exact Or.inl ⟨rfl, _, rfl⟩
              · exact Or.inr (Or.inr
                  ⟨Or.inr (Or.inr (Or.inr (Or.inl rfl))), rfl⟩)
              · rcases submit_phone_tag env.phone_exc _ with h | ⟨t, h⟩
                · exact Or.inr (Or.inr
                    ⟨Or.inr (Or.inr (Or.inr (Or.inr (Or.inl h)))), rfl⟩)
                · exact Or.inr (Or.inr
                    ⟨Or.inr (Or.inr (Or.inr (Or.inr (Or.inr ⟨t, h⟩)))), rfl⟩)
            · split
              · exact Or.inl ⟨rfl, _, rfl⟩
              · exact Or.inr (Or.inr
                  ⟨classify_post_submit_cases cfg _ env.page_url, rfl⟩)
          · exact Or.inr (Or.inl ⟨Or.inr (Or.inr rfl), _, rfl⟩)
        · exact Or.inr (Or.inl ⟨Or.inr (Or.inl rfl), _, rfl⟩)
      · exact Or.inr (Or.inl ⟨Or.inl rfl, _, rfl⟩)

/-- Every call of run_single_account hands exactly one outcome record to
the output writer: the write sits in the finally block, which runs on
every exit path. -/
theorem rows_length_one (cfg : BotConfig) (env : AttemptEnv) (g : GenData)
    (p : Option String) : (run_single_account cfg env g p).rows.length = 1 := by
  simp only [run_single_account]
  repeat' split
  all_goals rfl

/-- The steps trace of an attempt is the trace of its try block. -/
theorem run_single_steps (cfg : BotConfig) (env : AttemptEnv) (g : GenData)
    (p : Option String) :
    (run_single_account cfg env g p).steps =
      (tryBody cfg env (generate_account_data g p)).steps := by
  simp only [run_single_account]
  repeat' split
  all_goals rfl

/-- When the pause-on-success override is off and the recovery launch of
this attempt does not raise, run_single_account returns True: the batch
continues past the attempt whatever the world did. -/
theorem outcome_ok_true (cfg : BotConfig) (env : AttemptEnv) (g : GenData)
    (p : Option String) (hkeep : cfg.KEEP_BROWSER_OPEN_ON_SUCCESS = false)
    (hrel : env.handler_relaunch = none) :
    (run_single_account cfg env g p).outcome = Except.ok true := by
  have hshape := tryBody_shape cfg env (generate_account_data g p)
  simp only [run_single_account]
  split
  · next b heq =>
      rcases hshape with ⟨_, e, hexc⟩ | ⟨_, e, hexc⟩ | ⟨_, hexit⟩
      · rw [heq] at hexc; cases hexc
      · rw [heq] at hexc; cases hexc
      · rw [heq] at hexit
        unfold successExit at hexit
        rw [hkeep] at hexit
        simp only [Bool.false_and, Bool.false_eq_true, if_false,
          TryExit.ret.injEq] at hexit
        rw [← hexit]
  · next e heq =>
      split
      · rw [hrel]
      · rfl

/-- Helper: the batch loop writes exactly one record per attempt it
starts. -/
theorem runLoop_rows_eq_attempts (cfg : BotConfig) (envs : Nat → AttemptEnv)
    (gens : Nat → GenData) :
    ∀ (ps : List String) (i : Nat),
      (runLoop cfg envs gens ps i).1.length = (runLoop cfg envs gens ps i).2.1 := by
  intro ps
  induction ps with
  | nil => intro i; rfl
  | cons p rest ih =>
      intro i
      simp only [runLoop]
      split
      · exact rows_length_one cfg (envs i) (gens i) (some p)
      · exact rows_length_one cfg (envs i) (gens i) (some p)
      · dsimp only
        rw [List.length_append, rows_length_one cfg (envs i) (gens i) (some p),
          ih (i + 1)]
        omega

/-- Helper: when nothing stops or aborts the batch, it starts one attempt
per queue entry. -/
theorem runLoop_attempts_all (cfg : BotConfig) (envs : Nat → AttemptEnv)
    (gens : Nat → GenData)
    (hkeep : cfg.KEEP_BROWSER_OPEN_ON_SUCCESS = false)
    (hrel : ∀ i, (envs i).handler_relaunch = none) :
    ∀ (ps : List String) (i : Nat),
      (runLoop cfg envs gens ps i).2.1 = ps.length := by
  intro ps
  induction ps with
  | nil => intro i; rfl
  | cons p rest ih =>
      intro i
      simp only [runLoop]
      rw [outcome_ok_true cfg (envs i) (gens i) (some p) hkeep (hrel i)]
      dsimp only
      rw [ih (i + 1), List.length_cons]

/- ------------------------------------------------------------------ -/
/- C1: one outcome record per attempt                                  -/
/- ------------------------------------------------------------------ -/

/-- C1 (amended): run_single_account invokes the output writer exactly once
per attempt — the write happens on every exit path — so a batch always
writes as many records as it starts attempts; and the number of attempts is
the queue length for a non-empty queue (or 1 for an empty queue) provided
the batch is neither stopped by pause-on-success nor aborted by an
exception escaping an attempt recovery relaunch. -/
theorem run_records_eq_attempts (cfg : BotConfig) (envs : Nat → AttemptEnv)
    (gens : Nat → GenData) (phones : List String)
    (hkeep : cfg.KEEP_BROWSER_OPEN_ON_SUCCESS = false)
    (hrel : ∀ i, (envs i).handler_relaunch = none) :
    (∀ (env : AttemptEnv) (g : GenData) (p : Option String),
        (run_single_account cfg env g p).rows.length = 1) ∧
    (runBatch cfg envs gens phones).1.length =
      (runBatch cfg envs gens phones).2.1 ∧
    (phones = [] → (runBatch cfg envs gens phones).2.1 = 1) ∧
    (phones ≠ [] → (runBatch cfg envs gens phones).2.1 = phones.length) := by
  refine ⟨fun env g p => rows_length_one cfg env g p, ?_, ?_, ?_⟩
  · cases phones with
    | nil =>
        simp only [runBatch]
        exact rows_length_one cfg (envs 0) (gens 0) none
    | cons p ps => exact runLoop_rows_eq_attempts cfg envs gens (p :: ps) 0
  · intro h; subst h; rfl
  · intro h
    cases phones with
    | nil => exact absurd rfl h
    | cons p ps => exact runLoop_attempts_all cfg envs gens hkeep hrel (p :: ps) 0

/-- Counterexample to C1 as stated: a two-element queue on which the first
attempt hits a browser-closed error whose recovery launch itself raises
produces one record, not two, although the batch was not stopped by
pause-on-success — the launch error aborts the batch after the first
attempt. -/
theorem run_records_counterexample :
    (runBatch {} (fun _ => relaunchFailEnv) (fun _ => gen0) ["p1", "p2"]).1.length
      = 1 ∧
    (["p1", "p2"] : List String).length = 2 ∧
    ({} : BotConfig).KEEP_BROWSER_OPEN_ON_SUCCESS = false :=
  ⟨rfl, rfl, rfl⟩

/-- Witness for run_records_eq_attempts: a benign two-element batch writes
exactly two records. -/
theorem run_records_eq_attempts_witness :
    ({} : BotConfig).KEEP_BROWSER_OPEN_ON_SUCCESS = false ∧
    (runBatch {} (fun _ => benignEnv) (fun _ => gen0) ["p1", "p2"]).1.length = 2 := by
  have h := run_records_eq_attempts {} (fun _ => benignEnv) (fun _ => gen0)
    ["p1", "p2"] rfl (fun _ => rfl)
  exact ⟨rfl, h.2.1.trans ((h.2.2.2 (by simp)).trans rfl)⟩

/- ------------------------------------------------------------------ -/
/- C2: the persisted notes value                                       -/
/- ------------------------------------------------------------------ -/

/-- Helper carrying the proof that a persisted notes value is well formed
whenever the recovery launch of the attempt does not raise. -/
theorem notes_wellformed_aux (cfg : BotConfig) (env : AttemptEnv)
    (g : GenData) (p : Option String)
    (hrel : env.handler_relaunch = none) :
    ∀ r ∈ (run_single_account cfg env g p).rows,
      r.notes ≠ "" ∧ r.notes ≠ "init" ∧ notesWellFormed r.notes := by
  have hshape := tryBody_shape cfg env (generate_account_data g p)
  have hmain : notesWellFormed
      (((run_single_account cfg env g p).rows.map OutcomeRow.notes).headD "x") →
      ∀ r ∈ (run_single_account cfg env g p).rows,
        r.notes ≠ "" ∧ r.notes ≠ "init" ∧ notesWellFormed r.notes := by
    intro hwf r hr
    have hone := rows_length_one cfg env g p
    match hrows : (run_single_account cfg env g p).rows with
    | [r0] =>
        rw [hrows] at hr
        simp only [List.mem_singleton] at hr
        subst hr
        rw [hrows] at hwf
        simp only [List.map_cons, List.map_nil, List.headD_cons] at hwf
        exact ⟨(notesWellFormed_ne _ hwf).1, (notesWellFormed_ne _ hwf).2, hwf⟩
    | [] => rw [hrows] at hone; cases hone
    | r0 :: r1 :: rest => rw [hrows] at hone; simp at hone
  apply hmain
  simp only [run_single_account]
  split
  · next b heq =>
      rcases hshape with ⟨_, e, hexc⟩ | ⟨hstage, e, hexc⟩ | ⟨hpost, _⟩
      · rw [heq] at hexc; cases hexc
      · rw [heq] at hexc; cases hexc
      · simp only [List.map_cons, List.map_nil, List.headD_cons, outcomeRowFor]
        exact Or.inr (Or.inl hpost)
  · next e heq =>
      split
      · rw [hrel]
        simp only [List.map_cons, List.map_nil, List.headD_cons, outcomeRowFor]
        split
        · exact Or.inr (Or.inr ⟨e.name, rfl⟩)
        · next hni =>
            rcases hshape with ⟨hinit, _⟩ | ⟨hstage, _⟩ | ⟨_, hexit⟩
            · exact absurd hinit hni
            · exact Or.inl hstage
            · rw [heq] at hexit
              exact absurd hexit.symm (successExit_ne_exc cfg e)
      · simp only [List.map_cons, List.map_nil, List.headD_cons, outcomeRowFor]
        split
        · exact Or.inr (Or.inr ⟨e.name, rfl⟩)
        · next hni =>
            rcases hshape with ⟨hinit, _⟩ | ⟨hstage, _⟩ | ⟨_, hexit⟩
            · exact absurd hinit hni
            · exact Or.inl hstage
            · rw [heq] at hexit
              exact absurd hexit.symm (successExit_ne_exc cfg e)

/-- C2 (amended): as long as the browser-closed recovery launch of the
attempt does not itself raise, the notes value of the one persisted record
is exactly one of the enumerated tags — a stage-failure tag, a post-submit
classification tag, a phone-flow status tag or a flow_exception tag — and
is never empty and never the init placeholder.  (If the recovery launch
raises, the fix-up is skipped and the placeholder escapes to the record.) -/
theorem account_notes_wellformed (cfg : BotConfig) (env : AttemptEnv)
    (g : GenData) (p : Option String)
    (hrel : env.handler_relaunch = none) :
    ∀ r ∈ (run_single_account cfg env g p).rows,
      r.notes ≠ "" ∧ r.notes ≠ "init" ∧ notesWellFormed r.notes :=
  notes_wellformed_aux cfg env g p hrel

/-- Counterexample to C2 as stated: when a browser-closed exception is
followed by a failing recovery launch, the record persisted for the attempt
carries the initial placeholder. -/
theorem notes_placeholder_counterexample :
    ((run_single_account {} relaunchFailEnv gen0 none).rows.map OutcomeRow.notes)
      = ["init"] := rfl

/-- Witness for account_notes_wellformed: the benign no-phone attempt
persists the unknown-post-submit tag, which is well formed. -/
theorem account_notes_wellformed_witness :
    outcomeRowFor (generate_account_data gen0 none)
        "unknown_post_submit_state_no_phone" ∈
      (run_single_account {} benignEnv gen0 none).rows ∧
    notesWellFormed "unknown_post_submit_state_no_phone" := by
  have hmem : outcomeRowFor (generate_account_data gen0 none)
      "unknown_post_submit_state_no_phone" ∈
      (run_single_account {} benignEnv gen0 none).rows := by
    rw [show (run_single_account {} benignEnv gen0 none).rows =
      [outcomeRowFor (generate_account_data gen0 none)
        "unknown_post_submit_state_no_phone"] from rfl]
    exact List.mem_singleton.mpr rfl
  exact ⟨hmem,
    (account_notes_wellformed {} benignEnv gen0 none rfl _ hmem).2.2⟩


/- ------------------------------------------------------------------ -/
/- C4: browser-closed recovery                                         -/
/- ------------------------------------------------------------------ -/

/-- C4 (amended): when an attempt raises an exception whose message matches
the browser-closed condition and the recovery launch does not itself raise,
the handler of that same attempt shuts down and relaunches the whole
browser (so the relaunch completes before any next attempt starts), the
attempt still hands exactly one record to the writer, that record carries a
stage-failure or flow_exception tag (never the placeholder), and the
attempt returns True so the batch continues.  (If the recovery launch
raises, the shutdown still happens but no relaunch completes, the record
may carry the init placeholder, and the launch error aborts the batch.) -/
theorem browser_closed_triggers_relaunch (cfg : BotConfig) (env : AttemptEnv)
    (g : GenData) (p : Option String) (e : PyExn)
    (hexc : (tryBody cfg env (generate_account_data g p)).exit = TryExit.exc e)
    (hmsg : browser_closed_msg e = true)
    (hrel : env.handler_relaunch = none) :
    (run_single_account cfg env g p).events =
      (tryBody cfg env (generate_account_data g p)).events ++
        [BMEvent.shutdown, BMEvent.launch] ∧
    (run_single_account cfg env g p).rows.length = 1 ∧
    (∀ r ∈ (run_single_account cfg env g p).rows,
        r.notes ≠ "init" ∧ notesWellFormed r.notes) ∧
    (run_single_account cfg env g p).outcome = Except.ok true := by
  refine ⟨?_, rows_length_one cfg env g p, ?_, ?_⟩
  · simp only [run_single_account, hexc, hmsg, hrel, if_true]
  · intro r hr
    have h := notes_wellformed_aux cfg env g p hrel r hr
    exact ⟨h.2.1, h.2.2⟩
  · simp only [run_single_account, hexc, hmsg, hrel, if_true]

/-- Counterexample to C4 as stated: when the recovery launch itself raises,
the browser is shut down but never relaunched, the record carries the init
placeholder rather than a flow_exception or stage tag, and the launch error
escapes the attempt, aborting the batch. -/
theorem browser_closed_relaunch_counterexample :
    (run_single_account {} relaunchFailEnv gen0 none).events =
      [BMEvent.shutdown] ∧
    (run_single_account {} relaunchFailEnv gen0 none).outcome =
      Except.error { name := "Exception", msg := "chromium launch failed" } ∧
    ((run_single_account {} relaunchFailEnv gen0 none).rows.map
        OutcomeRow.notes) = ["init"] :=
  ⟨rfl, rfl, rfl⟩

/-- Witness for browser_closed_triggers_relaunch: a browser-closed failure
of new_page with a working recovery relaunch. -/
theorem browser_closed_triggers_relaunch_witness :
    browser_closed_msg { name := "PlaywrightError", msg := "Target closed" }
      = true ∧
    (run_single_account {} browserClosedEnv gen0 none).events =
      [BMEvent.shutdown, BMEvent.launch] ∧
    (run_single_account {} browserClosedEnv gen0 none).outcome =
      Except.ok true := by
  have h := browser_closed_triggers_relaunch {} browserClosedEnv gen0 none
    { name := "PlaywrightError", msg := "Target closed" } rfl rfl rfl
  refine ⟨rfl, ?_, h.2.2.2⟩
  rw [h.1]
  rfl

/- ------------------------------------------------------------------ -/
/- C5: country-selection failure is non-fatal                          -/
/- ------------------------------------------------------------------ -/

/-- fill_form succeeds exactly when all five field fills succeed — the
country-selection outcome plays no part in its result. -/
theorem fill_form_true_iff (fe : FormEnv) :
    (fill_form fe).1 = true ↔
      (fe.first_name_fill = none ∧ fe.last_name_fill = none ∧
       fe.email_fill = none ∧ fe.password_fill = none ∧
       fe.confirm_pass_fill = none) := by
  unfold fill_form
  cases h1 : fe.first_name_fill <;> cases h2 : fe.last_name_fill <;>
    cases h3 : fe.email_fill <;> cases h4 : fe.password_fill <;>
      cases h5 : fe.confirm_pass_fill <;> simp [h1, h2, h3, h4, h5]

/-- Whenever navigation and the form fill succeed, the try block reaches
the submit_form call, whatever the rest of the world does. -/
theorem tryBody_steps_submit (cfg : BotConfig) (env : AttemptEnv)
    (data : AccountData)
    (hnc : env.nc.first_try = none) (hnp : env.new_page = none)
    (hnav : (robust_goto cfg env.navRes env.navJitter).1 = true)
    (hfill : (fill_form env.form).1 = true) :
    "submit_form" ∈ (tryBody cfg env data).steps := by
  simp only [tryBody, new_context, hnc, hnp, hnav, hfill, if_true]
  repeat' split
  all_goals simp

/-- C5: with both country strategies failing, select_country reports
failure but fill_form still fills first name, last name, email, password
and the confirmation and succeeds; in general fill_form fails only when a
field fill fails, never because of the country; and the attempt still
reaches the submission step. -/
theorem country_failure_nonfatal (cfg : BotConfig) (env : AttemptEnv)
    (g : GenData) (p : Option String)
    (hct : env.form.country_typing = false) (hcj : env.form.country_js = false)
    (h1 : env.form.first_name_fill = none) (h2 : env.form.last_name_fill = none)
    (h3 : env.form.email_fill = none) (h4 : env.form.password_fill = none)
    (h5 : env.form.confirm_pass_fill = none)
    (hnc : env.nc.first_try = none) (hnp : env.new_page = none)
    (hnav : (robust_goto cfg env.navRes env.navJitter).1 = true) :
    select_country env.form = false ∧
    fill_form env.form =
      (true, ["first_name", "last_name", "email", "password",
              "confirm_password"]) ∧
    (∀ fe : FormEnv, (fill_form fe).1 = true ↔
        (fe.first_name_fill = none ∧ fe.last_name_fill = none ∧
         fe.email_fill = none ∧ fe.password_fill = none ∧
         fe.confirm_pass_fill = none)) ∧
    "submit_form" ∈ (run_single_account cfg env g p).steps := by
  have hfill : fill_form env.form =
      (true, ["first_name", "last_name", "email", "password",
              "confirm_password"]) := by
    simp [fill_form, h1, h2, h3, h4, h5]
  refine ⟨by simp [select_country, hct, hcj], hfill,
    fun fe => fill_form_true_iff fe, ?_⟩
  rw [run_single_steps]
  exact tryBody_steps_submit cfg env _ hnc hnp hnav (by rw [hfill])

/-- A world in which both country-selection strategies fail but everything
else succeeds. -/
def countryFailEnv : AttemptEnv :=
  { benignEnv with
    form := { benignForm with country_typing := false, country_js := false } }

/-- Witness for country_failure_nonfatal: with both strategies failing the
attempt still reaches submission. -/
theorem country_failure_nonfatal_witness :
    countryFailEnv.form.country_typing = false ∧
    select_country countryFailEnv.form = false ∧
    "submit_form" ∈ (run_single_account {} countryFailEnv gen0 none).steps := by
  have h := country_failure_nonfatal {} countryFailEnv gen0 none
    rfl rfl rfl rfl rfl rfl rfl rfl rfl rfl
  exact ⟨rfl, h.1, h.2.2.2⟩

/- ------------------------------------------------------------------ -/
/- C6: context configuration and creation retry                        -/
/- ------------------------------------------------------------------ -/

/-- C6 (amended): every context new_context produces has the fixed 1200x820
viewport and the request-interception rule installed; a first-try context
additionally gets java_script_enabled and the Desktop Chrome user agent,
but the single retried context created after the relaunch is configured
with the viewport only, leaving the library-default user agent in place.
When creation fails the browser is torn down and relaunched exactly once
and browser.new_context is retried exactly once, a retry failure
propagating with no further nested retry.  The interception rule aborts
image, media and font requests and requests whose lowercased URL contains a
deny-listed tracker host, and passes everything else through. -/
theorem new_context_spec :
    (∀ (env : NewContextEnv) (ctx : ContextInfo),
        (new_context env).result = Except.ok ctx →
        ctx.viewportWidth = 1200 ∧ ctx.viewportHeight = 820 ∧
        ctx.requestBlockingInstalled = true) ∧
    (∀ env : NewContextEnv, env.first_try = none →
        (new_context env).result = Except.ok
          { viewportWidth := 1200, viewportHeight := 820,
            javaScriptEnabled := some true,
            userAgent := some desktop_chrome_user_agent,
            requestBlockingInstalled := true } ∧
        (new_context env).events = [] ∧ (new_context env).contextCalls = 1) ∧
    (∀ (env : NewContextEnv) (e : PyExn), env.first_try = some e →
        env.relaunch = none →
        (new_context env).events = [BMEvent.shutdown, BMEvent.launch] ∧
        (new_context env).contextCalls = 2 ∧
        (∀ e2, env.retry_try = some e2 →
            (new_context env).result = Except.error e2) ∧
        (env.retry_try = none →
            (new_context env).result = Except.ok
              { viewportWidth := 1200, viewportHeight := 820,
                javaScriptEnabled := none, userAgent := none,
                requestBlockingInstalled := true })) ∧
    (∀ resourceType url, blocked_resource_types.contains resourceType = true →
        route_handler resourceType url = RouteAction.abort) ∧
    (∀ resourceType url,
        blocked_hosts.any (fun host => strContainsLower url host) = true →
        route_handler resourceType url = RouteAction.abort) ∧
    (∀ resourceType url,
        blocked_resource_types.contains resourceType = false →
        blocked_hosts.any (fun host => strContainsLower url host) = false →
        route_handler resourceType url = RouteAction.continue_) := by
  refine ⟨?_, ?_, ?_, ?_, ?_, ?_⟩
  · intro env ctx h
    unfold new_context at h
    cases hft : env.first_try with
    | none =>
        rw [hft] at h
        simp only [Except.ok.injEq] at h
        subst h
        exact ⟨rfl, rfl, rfl⟩
    | some e =>
        rw [hft] at h
        cases hrl : env.relaunch with
        | some e2 => rw [hrl] at h; cases h
        | none =>
            rw [hrl] at h
            cases hrt : env.retry_try with
            | some e3 => rw [hrt] at h; cases h
            | none =>
                rw [hrt] at h
                simp only [Except.ok.injEq] at h
                subst h
                exact ⟨rfl, rfl, rfl⟩
  · intro env h
    simp [new_context, h]
  · intro env e hft hrl
    refine ⟨?_, ?_, ?_, ?_⟩
    · cases hrt : env.retry_try <;> simp [new_context, hft, hrl, hrt]
    · cases hrt : env.retry_try <;> simp [new_context, hft, hrl, hrt]
    · intro e2 hrt; simp [new_context, hft, hrl, hrt]
    · intro hrt; simp [new_context, hft, hrl, hrt]
  · intro rt url h
    unfold route_handler
    rw [if_pos h]
  · intro rt url h
    unfold route_handler
    by_cases hr : blocked_resource_types.contains rt = true
    · rw [if_pos hr]
    · rw [if_neg hr, if_pos h]
  · intro rt url h1 h2
    have hn1 : ¬(blocked_resource_types.contains rt = true) := by
      rw [h1]; simp
    have hn2 : ¬((blocked_hosts.any fun host => strContainsLower url host) = true) := by
      rw [h2]; simp
    unfold route_handler
    rw [if_neg hn1, if_neg hn2]

/-- Counterexample to C6 as stated: the context created on the retry after
a relaunch is configured with the viewport only — the Desktop Chrome user
agent is not applied to it. -/
theorem new_context_retry_no_user_agent :
    (new_context { first_try := some { name := "Error", msg := "ctx create failed" },
                   relaunch := none, retry_try := none }).result =
      Except.ok { viewportWidth := 1200, viewportHeight := 820,
                  javaScriptEnabled := none, userAgent := none,
                  requestBlockingInstalled := true } ∧
    (none : Option String) ≠ some desktop_chrome_user_agent :=
  ⟨rfl, by simp⟩

/-- Witness for new_context_spec: an image request is aborted and a
first-try context carries the full configuration. -/
theorem new_context_spec_witness :
    route_handler "image" "https://example.com/a.png" = RouteAction.abort ∧
    (new_context { first_try := none, relaunch := none, retry_try := none }).result =
      Except.ok { viewportWidth := 1200, viewportHeight := 820,
                  javaScriptEnabled := some true,
                  userAgent := some desktop_chrome_user_agent,
                  requestBlockingInstalled := true } :=
  ⟨new_context_spec.2.2.2.1 "image" "https://example.com/a.png" (by decide),
   (new_context_spec.2.1 { first_try := none, relaunch := none, retry_try := none }
      rfl).1⟩

/- ------------------------------------------------------------------ -/
/- C7: the phone verification sub-flow                                 -/
/- ------------------------------------------------------------------ -/

/-- C7: for a submitted attempt carrying a phone number, a timeout waiting
for the phone input persists phone_input_not_found and performs no phone
interaction; a visible input with a clean submit_phone run clears the
field, types the number character by character, clicks Send code, waits
the fixed 10 seconds and persists the success tag and the phone number;
and the concrete one-element queue scenario produces exactly that row. -/
theorem phone_flow_spec (cfg : BotConfig) (env : AttemptEnv) (g : GenData)
    (phone : String)
    (hnc : env.nc.first_try = none) (hnp : env.new_page = none)
    (hnav : (robust_goto cfg env.navRes env.navJitter).1 = true)
    (hfill : (fill_form env.form).1 = true) (hsub : env.submit = true) :
    (env.phone_wait = WaitOutcome.timeout →
      ((run_single_account cfg env g (some phone)).rows.map OutcomeRow.notes) =
        ["phone_input_not_found"] ∧
      (run_single_account cfg env g (some phone)).phoneActions = []) ∧
    (env.phone_wait = WaitOutcome.visible → env.phone_exc = none →
      ((run_single_account cfg env g (some phone)).rows.map OutcomeRow.notes) =
        ["send_code_clicked_waited_10s"] ∧
      ((run_single_account cfg env g (some phone)).rows.map
          OutcomeRow.phone_used) = [phone] ∧
      (run_single_account cfg env g (some phone)).phoneActions =
        [PhoneAction.click, PhoneAction.clear] ++
          phone.data.map PhoneAction.typeChar ++
          [PhoneAction.clickSendCode, PhoneAction.waitSeconds 10]) ∧
    ((runBatch {} (fun _ => benignEnv) (fun _ => gen0) ["+15551234567"]).1 =
      [{ timestamp := gen0.timestamp, phone_used := "+15551234567",
         email := gen0.email, password := gen0.password,
         first_name := gen0.first_name, last_name := gen0.last_name,
         country := gen0.country, notes := "send_code_clicked_waited_10s" }]) := by
  refine ⟨?_, ?_, rfl⟩
  · intro hwait
    simp only [run_single_account, tryBody, new_context, hnc, hnp, hnav, hfill,
      hsub, hwait, generate_account_data, wait_for_page, if_true]
    unfold successExit
    split
    · simp [outcomeRowFor]
    · rename_i heq
      split at heq <;> simp at heq
  · intro hwait hexc0
    simp only [run_single_account, tryBody, new_context, hnc, hnp, hnav, hfill,
      hsub, hwait, hexc0, generate_account_data, wait_for_page, submit_phone,
      phoneActionsFor, if_true]
    unfold successExit
    split
    · simp [outcomeRowFor]
    · rename_i heq
      split at heq <;> simp at heq

/-- Witness for phone_flow_spec: the benign world with the scenario phone
number persists the success tag. -/
theorem phone_flow_spec_witness :
    benignEnv.submit = true ∧
    ((run_single_account {} benignEnv gen0 (some "+15551234567")).rows.map
        OutcomeRow.notes) = ["send_code_clicked_waited_10s"] := by
  have h := phone_flow_spec {} benignEnv gen0 "+15551234567" rfl rfl rfl rfl rfl
  exact ⟨rfl, (h.2.1 rfl rfl).1⟩
